import Mathlib

/-!
Verification of the centurion mouse-state component.

The repository contains two variants of the mouse-state tracker:

* `cen.mouse_state` (src/include/mouse_state.hpp): header-only class whose
  `update(windowWidth, windowHeight)` remaps raw coordinates with a
  floating-point ratio before scaling, clamping the window dimensions at the
  point of division via `detail::max(w, 1)`.
* `centurion.MouseState` (src/src/mouse_state.cpp): older class storing window
  dimensions as fields, whose `update()` remaps with integer division before
  scaling.

Machine integers are modelled as `Int` (coordinates and dimensions are small,
far from the 32-bit overflow boundary in every scenario considered here).
The C runtime float arithmetic of the header variant is modelled by exact
rational (`Rat`) arithmetic followed by truncation toward zero, which is exact
at every concrete input evaluated below.
-/

set_option autoImplicit false

/-- A raw sample as produced by `SDL_GetMouseState`: the raw physical pointer
coordinates written through the out-parameters, and the returned button
bitmask. -/
structure RawInput where
  x : Int
  y : Int
  mask : Nat
deriving DecidableEq, Repr

/-- SDL button index for the left mouse button (external SDL constant). -/
def SDL_BUTTON_LEFT : Nat := 1

/-- SDL button index for the right mouse button (external SDL constant). -/
def SDL_BUTTON_RIGHT : Nat := 3

/-- The SDL `SDL_BUTTON(X)` mask macro: `1 << (X - 1)` (external SDL macro). -/
def SDL_BUTTON (b : Nat) : Nat := 1 <<< (b - 1)

/-- Truncation toward zero of a rational, modelling the C++
`static_cast<int>` conversion applied to the float results in
`cen::mouse_state::update`. -/
def truncQ (q : Rat) : Int :=
  if 0 ≤ q.num then ((q.num.natAbs / q.den : Nat) : Int)
  else -((q.num.natAbs / q.den : Nat) : Int)

/-- C++ `int` division: quotient truncated toward zero. Used by the integer
remap in `centurion::MouseState::update`. -/
def cppIntDiv (a b : Int) : Int :=
  if (0 ≤ a ∧ 0 ≤ b) ∨ (a < 0 ∧ b < 0) then ((a.natAbs / b.natAbs : Nat) : Int)
  else -((a.natAbs / b.natAbs : Nat) : Int)

namespace cen

/-- Modelled from the spec: `detail::max` from `detail/max.hpp` (the header is
not under src/); per the spec the update formula is
`logicalX = (rawX / max(windowWidth, 1)) * logicalWidth`, i.e. the ordinary
maximum of its two arguments. -/
def detailMax (a b : Int) : Int := if a < b then b else a

/-- The state of `cen::mouse_state` (src/include/mouse_state.hpp, lines
278-289). -/
structure mouse_state where
  m_mouseX : Int
  m_mouseY : Int
  m_oldX : Int
  m_oldY : Int
  m_logicalWidth : Int
  m_logicalHeight : Int
  m_leftPressed : Bool
  m_rightPressed : Bool
  m_prevLeftPressed : Bool
  m_prevRightPressed : Bool
deriving DecidableEq, Repr

/-- The default-constructed `cen::mouse_state`, from the in-class member
initializers (hpp lines 279-288). -/
def mouse_state.default : mouse_state :=
  { m_mouseX := 0
    m_mouseY := 0
    m_oldX := 0
    m_oldY := 0
    m_logicalWidth := 1
    m_logicalHeight := 1
    m_leftPressed := false
    m_rightPressed := false
    m_prevLeftPressed := false
    m_prevRightPressed := false }

/-- Embeds `cen::mouse_state::update` (hpp lines 72-97): saves current position and
button flags into the old/prev fields, reads the raw sample, then remaps the
raw coordinates into logical space with a float ratio over the clamped window
dimensions. The raw sample stands for the `SDL_GetMouseState` call. -/
def mouse_state.update (s : mouse_state) (raw : RawInput)
    (windowWidth windowHeight : Int) : mouse_state :=
  let mouseX1 : Int := raw.x
  let mouseY1 : Int := raw.y
  let leftPressed1 : Bool := (raw.mask &&& SDL_BUTTON SDL_BUTTON_LEFT) != 0
  let rightPressed1 : Bool := (raw.mask &&& SDL_BUTTON SDL_BUTTON_RIGHT) != 0
  let xRatio : Rat := (mouseX1 : Rat) / ((detailMax windowWidth 1 : Int) : Rat)
  let adjustedX : Rat := xRatio * ((s.m_logicalWidth : Int) : Rat)
  let yRatio : Rat := (mouseY1 : Rat) / ((detailMax windowHeight 1 : Int) : Rat)
  let adjustedY : Rat := yRatio * ((s.m_logicalHeight : Int) : Rat)
  { s with
    m_oldX := s.m_mouseX
    m_oldY := s.m_mouseY
    m_prevLeftPressed := s.m_leftPressed
    m_prevRightPressed := s.m_rightPressed
    m_leftPressed := leftPressed1
    m_rightPressed := rightPressed1
    m_mouseX := truncQ adjustedX
    m_mouseY := truncQ adjustedY }

/-- Embeds `cen::mouse_state::reset` (hpp lines 105-109). -/
def mouse_state.reset (s : mouse_state) : mouse_state :=
  { s with m_logicalWidth := 1, m_logicalHeight := 1 }

/-- Embeds `cen::mouse_state::set_logical_width` (hpp lines 122-125). -/
def mouse_state.set_logical_width (s : mouse_state) (logicalWidth : Int) :
    mouse_state :=
  { s with m_logicalWidth := detailMax logicalWidth 1 }

/-- Embeds `cen::mouse_state::set_logical_height` (hpp lines 138-141). -/
def mouse_state.set_logical_height (s : mouse_state) (logicalHeight : Int) :
    mouse_state :=
  { s with m_logicalHeight := detailMax logicalHeight 1 }

/-- Embeds `cen::mouse_state::was_left_button_released` (hpp lines 150-153). -/
def mouse_state.was_left_button_released (s : mouse_state) : Bool :=
  !s.m_leftPressed && s.m_prevLeftPressed

/-- Embeds `cen::mouse_state::was_right_button_released` (hpp lines 162-165). -/
def mouse_state.was_right_button_released (s : mouse_state) : Bool :=
  !s.m_rightPressed && s.m_prevRightPressed

/-- Embeds `cen::mouse_state::was_mouse_moved` (hpp lines 174-177). -/
def mouse_state.was_mouse_moved (s : mouse_state) : Bool :=
  (s.m_mouseX != s.m_oldX) || (s.m_mouseY != s.m_oldY)

/-- Embeds `cen::mouse_state::mouse_x` (hpp lines 186-189). -/
def mouse_state.mouse_x (s : mouse_state) : Int := s.m_mouseX

/-- Embeds `cen::mouse_state::mouse_y` (hpp lines 198-201). -/
def mouse_state.mouse_y (s : mouse_state) : Int := s.m_mouseY

/-- Embeds `cen::mouse_state::mouse_pos` (hpp lines 210-213). -/
def mouse_state.mouse_pos (s : mouse_state) : Int × Int :=
  (s.m_mouseX, s.m_mouseY)

/-- Embeds `cen::mouse_state::logical_width` (hpp lines 223-226). -/
def mouse_state.logical_width (s : mouse_state) : Int := s.m_logicalWidth

/-- Embeds `cen::mouse_state::logical_height` (hpp lines 236-239). -/
def mouse_state.logical_height (s : mouse_state) : Int := s.m_logicalHeight

/-- Embeds `cen::mouse_state::logical_size` (hpp lines 248-251). -/
def mouse_state.logical_size (s : mouse_state) : Int × Int :=
  (s.m_logicalWidth, s.m_logicalHeight)

/-- Embeds `cen::mouse_state::is_left_button_pressed` (hpp lines 260-263). -/
def mouse_state.is_left_button_pressed (s : mouse_state) : Bool :=
  s.m_leftPressed

/-- Embeds `cen::mouse_state::is_right_button_pressed` (hpp lines 273-276). -/
def mouse_state.is_right_button_pressed (s : mouse_state) : Bool :=
  s.m_rightPressed

/-- The logical-dimension invariant of the spec: both logical dimensions are
at least 1. -/
def Inv (s : mouse_state) : Prop :=
  1 ≤ s.m_logicalWidth ∧ 1 ≤ s.m_logicalHeight

instance (s : mouse_state) : Decidable (Inv s) := by
  unfold Inv
  infer_instance

end cen

namespace centurion

/-- Modelled from the spec: the `Window` abstraction (window.h is not under
src/), an external collaborator "providing current physical pixel dimensions";
per the spec window dimensions are always at least 1. -/
structure Window where
  width : Int
  height : Int
  width_ge_one : 1 ≤ width
  height_ge_one : 1 ≤ height

/-- Embeds `Window::get_width`, modelled from the spec. -/
def Window.get_width (w : Window) : Int := w.width

/-- Embeds `Window::get_height`, modelled from the spec. -/
def Window.get_height (w : Window) : Int := w.height

/-- The state of `centurion::MouseState` (src/src/mouse_state.cpp); this
variant stores the window dimensions as fields. -/
structure MouseState where
  mouseX : Int
  mouseY : Int
  oldX : Int
  oldY : Int
  logicalWidth : Int
  logicalHeight : Int
  windowWidth : Int
  windowHeight : Int
  leftPressed : Bool
  rightPressed : Bool
  prevLeftPressed : Bool
  prevRightPressed : Bool
deriving DecidableEq, Repr

/-- Modelled from the spec: the member initializers of the old variant live in
`mouse_state.h`, which is not under src/; per the spec's data model, positions
start at 0, button flags at false, and the logical and window dimensions
default to 1. -/
def MouseState.default : MouseState :=
  { mouseX := 0
    mouseY := 0
    oldX := 0
    oldY := 0
    logicalWidth := 1
    logicalHeight := 1
    windowWidth := 1
    windowHeight := 1
    leftPressed := false
    rightPressed := false
    prevLeftPressed := false
    prevRightPressed := false }

/-- Embeds `centurion::MouseState::window_updated` (cpp lines 27-30): copies the
window's current dimensions into the stored fields, without clamping. -/
def MouseState.window_updated (s : MouseState) (window : Window) : MouseState :=
  { s with
    windowWidth := window.get_width
    windowHeight := window.get_height }

/-- Embeds `centurion::MouseState::update` (cpp lines 32-50): saves current position
and button flags into the old/prev fields, reads the raw sample, then remaps
using C++ integer division by the stored window dimensions before scaling by
the logical dimensions. -/
def MouseState.update (s : MouseState) (raw : RawInput) : MouseState :=
  let mouseX1 : Int := raw.x
  let mouseY1 : Int := raw.y
  let leftPressed1 : Bool := (raw.mask &&& SDL_BUTTON SDL_BUTTON_LEFT) != 0
  let rightPressed1 : Bool := (raw.mask &&& SDL_BUTTON SDL_BUTTON_RIGHT) != 0
  let adjustedX : Int := cppIntDiv mouseX1 s.windowWidth * s.logicalWidth
  let adjustedY : Int := cppIntDiv mouseY1 s.windowHeight * s.logicalHeight
  { s with
    oldX := s.mouseX
    oldY := s.mouseY
    prevLeftPressed := s.leftPressed
    prevRightPressed := s.rightPressed
    leftPressed := leftPressed1
    rightPressed := rightPressed1
    mouseX := adjustedX
    mouseY := adjustedY }

/-- Embeds `centurion::MouseState::reset` (cpp lines 52-57). -/
def MouseState.reset (s : MouseState) : MouseState :=
  { s with
    logicalWidth := 1
    logicalHeight := 1
    windowWidth := 1
    windowHeight := 1 }

/-- Embeds `centurion::MouseState::set_logical_width` (cpp lines 59-64). -/
def MouseState.set_logical_width (s : MouseState) (logicalWidth : Int) :
    MouseState :=
  { s with logicalWidth := if logicalWidth ≤ 0 then 1 else logicalWidth }

/-- Embeds `centurion::MouseState::set_logical_height` (cpp lines 66-71). -/
def MouseState.set_logical_height (s : MouseState) (logicalHeight : Int) :
    MouseState :=
  { s with logicalHeight := if logicalHeight ≤ 0 then 1 else logicalHeight }

/-- Embeds `centurion::MouseState::set_window_width` (cpp lines 73-78). -/
def MouseState.set_window_width (s : MouseState) (windowWidth : Int) :
    MouseState :=
  { s with windowWidth := if windowWidth ≤ 0 then 1 else windowWidth }

/-- Embeds `centurion::MouseState::set_window_height` (cpp lines 80-85). -/
def MouseState.set_window_height (s : MouseState) (windowHeight : Int) :
    MouseState :=
  { s with windowHeight := if windowHeight ≤ 0 then 1 else windowHeight }

/-- Embeds `centurion::MouseState::get_mouse_x` (cpp lines 87-89). -/
def MouseState.get_mouse_x (s : MouseState) : Int := s.mouseX

/-- Embeds `centurion::MouseState::get_mouse_y` (cpp lines 91-93). -/
def MouseState.get_mouse_y (s : MouseState) : Int := s.mouseY

/-- Embeds `centurion::MouseState::is_left_button_pressed` (cpp lines 95-97). -/
def MouseState.is_left_button_pressed (s : MouseState) : Bool := s.leftPressed

/-- Embeds `centurion::MouseState::is_right_button_pressed` (cpp lines 99-101). -/
def MouseState.is_right_button_pressed (s : MouseState) : Bool :=
  s.rightPressed

/-- Embeds `centurion::MouseState::was_left_button_released` (cpp lines 103-105). -/
def MouseState.was_left_button_released (s : MouseState) : Bool :=
  !s.leftPressed && s.prevLeftPressed

/-- Embeds `centurion::MouseState::was_right_button_released` (cpp lines 107-109). -/
def MouseState.was_right_button_released (s : MouseState) : Bool :=
  !s.rightPressed && s.prevRightPressed

/-- Embeds `centurion::MouseState::was_mouse_moved` (cpp lines 111-113). -/
def MouseState.was_mouse_moved (s : MouseState) : Bool :=
  (s.mouseX != s.oldX) || (s.mouseY != s.oldY)

/-- Embeds `centurion::MouseState::get_window_width` (cpp lines 115-117). -/
def MouseState.get_window_width (s : MouseState) : Int := s.windowWidth

/-- Embeds `centurion::MouseState::get_window_height` (cpp lines 119-121). -/
def MouseState.get_window_height (s : MouseState) : Int := s.windowHeight

/-- Embeds `centurion::MouseState::get_logical_width` (cpp lines 123-125). -/
def MouseState.get_logical_width (s : MouseState) : Int := s.logicalWidth

/-- Embeds `centurion::MouseState::get_logical_height` (cpp lines 127-129). -/
def MouseState.get_logical_height (s : MouseState) : Int := s.logicalHeight

/-- The logical-dimension invariant of the spec for the old variant. -/
def LInv (s : MouseState) : Prop :=
  1 ≤ s.logicalWidth ∧ 1 ≤ s.logicalHeight

instance (s : MouseState) : Decidable (LInv s) := by
  unfold LInv
  infer_instance

/-- The window-dimension invariant of the spec for the old variant: the stored
divisors are at least 1. -/
def WInv (s : MouseState) : Prop :=
  1 ≤ s.windowWidth ∧ 1 ≤ s.windowHeight

instance (s : MouseState) : Decidable (WInv s) := by
  unfold WInv
  infer_instance

/-- One invocation of a public mutating operation of `centurion::MouseState`. -/
inductive Op where
  | update (raw : RawInput)
  | window_updated (window : Window)
  | reset
  | set_logical_width (v : Int)
  | set_logical_height (v : Int)
  | set_window_width (v : Int)
  | set_window_height (v : Int)

/-- Apply one public operation to a `centurion::MouseState`. -/
def applyOp (s : MouseState) : Op → MouseState
  | Op.update raw => s.update raw
  | Op.window_updated window => s.window_updated window
  | Op.reset => s.reset
  | Op.set_logical_width v => s.set_logical_width v
  | Op.set_logical_height v => s.set_logical_height v
  | Op.set_window_width v => s.set_window_width v
  | Op.set_window_height v => s.set_window_height v

/-- Apply a sequence of public operations, left to right. -/
def applyOps (s : MouseState) (ops : List Op) : MouseState :=
  ops.foldl applyOp s

end centurion

/-! ## Helper lemmas -/

/-- Truncation is the identity on integers. -/
theorem truncQ_intCast (n : Int) : truncQ ((n : Int) : Rat) = n := by
  simp only [truncQ, Rat.num_intCast, Rat.den_intCast, Nat.div_one]
  split <;> omega

/-- The modelled `detail::max` is the ordinary maximum on `Int`. -/
theorem detailMax_eq_max (a b : Int) : cen.detailMax a b = max a b := by
  unfold cen.detailMax
  rcases lt_or_ge a b with h | h
  · rw [if_pos h, max_eq_right h.le]
  · rw [if_neg (not_lt.mpr h), max_eq_left h]

/-- The modelled `detail::max` against 1 is at least 1. -/
theorem one_le_detailMax_one (a : Int) : 1 ≤ cen.detailMax a 1 := by
  unfold cen.detailMax
  split <;> omega

/-- Unfolding of the x-coordinate produced by `cen::mouse_state::update`. -/
theorem cen_update_m_mouseX (s : cen.mouse_state) (raw : RawInput)
    (ww wh : Int) :
    (s.update raw ww wh).m_mouseX
      = truncQ (((raw.x : Int) : Rat) / ((cen.detailMax ww 1 : Int) : Rat)
          * ((s.m_logicalWidth : Int) : Rat)) := rfl

/-- Unfolding of the y-coordinate produced by `cen::mouse_state::update`. -/
theorem cen_update_m_mouseY (s : cen.mouse_state) (raw : RawInput)
    (ww wh : Int) :
    (s.update raw ww wh).m_mouseY
      = truncQ (((raw.y : Int) : Rat) / ((cen.detailMax wh 1 : Int) : Rat)
          * ((s.m_logicalHeight : Int) : Rat)) := rfl

/-- Each public operation of the old variant keeps the stored window
dimensions at least 1 (windows themselves report dimensions at least 1). -/
theorem centurion_winv_applyOp (s : centurion.MouseState) (o : centurion.Op)
    (h : centurion.WInv s) : centurion.WInv (centurion.applyOp s o) := by
  cases o with
  | update raw => exact h
  | window_updated window => exact ⟨window.width_ge_one, window.height_ge_one⟩
  | reset => exact ⟨le_refl 1, le_refl 1⟩
  | set_logical_width v => exact h
  | set_logical_height v => exact h
  | set_window_width v =>
    refine ⟨?_, h.2⟩
    show (1 : Int) ≤ (if v ≤ 0 then 1 else v)
    split <;> omega
  | set_window_height v =>
    refine ⟨h.1, ?_⟩
    show (1 : Int) ≤ (if v ≤ 0 then 1 else v)
    split <;> omega

/-- Window-dimension invariant along any sequence of public operations. -/
theorem centurion_winv_applyOps (ops : List centurion.Op) :
    ∀ s : centurion.MouseState,
      centurion.WInv s → centurion.WInv (centurion.applyOps s ops) := by
  induction ops with
  | nil => exact fun s h => h
  | cons o rest ih => exact fun s h => ih (centurion.applyOp s o) (centurion_winv_applyOp s o h)

/-! ## Claim theorems -/

/-- Claim C1: after `update(windowWidth, windowHeight)`, the stored mouse
x-coordinate equals the raw physical x-coordinate divided by
`max(windowWidth, 1)` as an exact ratio, multiplied by `logicalWidth`, then
truncated to an integer (symmetrically for y); concretely, with
`windowWidth = 800` and `logicalWidth = 400`, a raw pointer x of 400 yields
`mouse_x() == 200`. -/
theorem claim_C1_float_ratio_remap :
    (∀ (s : cen.mouse_state) (raw : RawInput) (windowWidth windowHeight : Int),
        (s.update raw windowWidth windowHeight).mouse_x
          = truncQ (((raw.x : Int) : Rat) / ((max windowWidth 1 : Int) : Rat)
              * ((s.m_logicalWidth : Int) : Rat))
      ∧ (s.update raw windowWidth windowHeight).mouse_y
          = truncQ (((raw.y : Int) : Rat) / ((max windowHeight 1 : Int) : Rat)
              * ((s.m_logicalHeight : Int) : Rat)))
    ∧ (cen.mouse_state.update
        { cen.mouse_state.default with m_logicalWidth := 400 }
        { x := 400, y := 0, mask := 0 } 800 600).mouse_x = 200 := by
  constructor
  · intro s raw ww wh
    constructor
    · show (s.update raw ww wh).m_mouseX = _
      rw [cen_update_m_mouseX, ← detailMax_eq_max]
    · show (s.update raw ww wh).m_mouseY = _
      rw [cen_update_m_mouseY, ← detailMax_eq_max]
  · show (cen.mouse_state.update _ _ _ _).m_mouseX = 200
    rw [cen_update_m_mouseX]
    have h1 : cen.detailMax 800 1 = 800 := by norm_num [cen.detailMax]
    rw [h1]
    have h2 : (((400 : Int) : Rat) / ((800 : Int) : Rat)
        * ((({ cen.mouse_state.default with
              m_logicalWidth := 400 } : cen.mouse_state).m_logicalWidth : Int) : Rat))
        = ((200 : Int) : Rat) := by
      norm_num
    rw [h2, truncQ_intCast]

/-- Claim C2: the two remapping implementations diverge: with window width
800, logical width 400 and a raw x of 400, the integer-division variant
(`centurion::MouseState::update`) yields 0 while the float-ratio variant
(`cen::mouse_state::update`) yields 200. -/
theorem claim_C2_divergent_remaps :
    (centurion.MouseState.update
        { centurion.MouseState.default with
            windowWidth := 800, windowHeight := 600,
            logicalWidth := 400, logicalHeight := 300 }
        { x := 400, y := 0, mask := 0 }).get_mouse_x = 0
    ∧ (cen.mouse_state.update
        { cen.mouse_state.default with
            m_logicalWidth := 400, m_logicalHeight := 300 }
        { x := 400, y := 0, mask := 0 } 800 600).mouse_x = 200
    ∧ (0 : Int) ≠ 200 := by
  refine ⟨by decide, ?_, by decide⟩
  show (cen.mouse_state.update _ _ _ _).m_mouseX = 200
  rw [cen_update_m_mouseX]
  have h1 : cen.detailMax 800 1 = 800 := by norm_num [cen.detailMax]
  rw [h1]
  have h2 : (((400 : Int) : Rat) / ((800 : Int) : Rat)
      * ((({ cen.mouse_state.default with
            m_logicalWidth := 400, m_logicalHeight := 300 } :
          cen.mouse_state).m_logicalWidth : Int) : Rat))
      = ((200 : Int) : Rat) := by
    norm_num
  rw [h2, truncQ_intCast]

/-- Claim C3: `was_left_button_released()` (and symmetrically the right
variant) is true iff the button is not pressed in the current snapshot and
was pressed in the preceding snapshot, and both are false in the
default-constructed state; this holds in both variants. -/
theorem claim_C3_release_edge_detection :
    (∀ s : cen.mouse_state,
        s.was_left_button_released = true
          ↔ (s.m_leftPressed = false ∧ s.m_prevLeftPressed = true))
    ∧ (∀ s : cen.mouse_state,
        s.was_right_button_released = true
          ↔ (s.m_rightPressed = false ∧ s.m_prevRightPressed = true))
    ∧ (∀ t : centurion.MouseState,
        t.was_left_button_released = true
          ↔ (t.leftPressed = false ∧ t.prevLeftPressed = true))
    ∧ (∀ t : centurion.MouseState,
        t.was_right_button_released = true
          ↔ (t.rightPressed = false ∧ t.prevRightPressed = true))
    ∧ cen.mouse_state.default.was_left_button_released = false
    ∧ cen.mouse_state.default.was_right_button_released = false
    ∧ centurion.MouseState.default.was_left_button_released = false
    ∧ centurion.MouseState.default.was_right_button_released = false := by
  refine ⟨?_, ?_, ?_, ?_, by decide, by decide, by decide, by decide⟩
  · intro s
    simp [cen.mouse_state.was_left_button_released]
  · intro s
    simp [cen.mouse_state.was_right_button_released]
  · intro t
    simp [centurion.MouseState.was_left_button_released]
  · intro t
    simp [centurion.MouseState.was_right_button_released]

/-- Claim C4: every `update()` saves the current position into the old fields
and the current button flags into the prev fields before reading new raw
input, so after any `update()` those fields hold exactly the pre-update
values; this holds in both variants. -/
theorem claim_C4_history_lags_one_cycle :
    (∀ (s : cen.mouse_state) (raw : RawInput) (ww wh : Int),
        (s.update raw ww wh).m_oldX = s.m_mouseX
      ∧ (s.update raw ww wh).m_oldY = s.m_mouseY
      ∧ (s.update raw ww wh).m_prevLeftPressed = s.m_leftPressed
      ∧ (s.update raw ww wh).m_prevRightPressed = s.m_rightPressed)
    ∧ (∀ (t : centurion.MouseState) (raw : RawInput),
        (t.update raw).oldX = t.mouseX
      ∧ (t.update raw).oldY = t.mouseY
      ∧ (t.update raw).prevLeftPressed = t.leftPressed
      ∧ (t.update raw).prevRightPressed = t.rightPressed) :=
  ⟨fun _ _ _ _ => ⟨rfl, rfl, rfl, rfl⟩,
   fun _ _ => ⟨rfl, rfl, rfl, rfl⟩⟩

/-- Claim C5: the logical dimensions are at least 1 in the initial state and
this is preserved by every public mutating operation of both variants
(accessors do not mutate the state); non-positive setter arguments store 1. -/
theorem claim_C5_logical_dims_invariant :
    cen.Inv cen.mouse_state.default
    ∧ (∀ (s : cen.mouse_state) (raw : RawInput) (ww wh : Int),
        cen.Inv s → cen.Inv (s.update raw ww wh))
    ∧ (∀ s : cen.mouse_state, cen.Inv s.reset)
    ∧ (∀ (s : cen.mouse_state) (w : Int),
        cen.Inv s → cen.Inv (s.set_logical_width w))
    ∧ (∀ (s : cen.mouse_state) (h : Int),
        cen.Inv s → cen.Inv (s.set_logical_height h))
    ∧ centurion.LInv centurion.MouseState.default
    ∧ (∀ (t : centurion.MouseState) (raw : RawInput),
        centurion.LInv t → centurion.LInv (t.update raw))
    ∧ (∀ t : centurion.MouseState, centurion.LInv t.reset)
    ∧ (∀ (t : centurion.MouseState) (w : Int),
        centurion.LInv t → centurion.LInv (t.set_logical_width w))
    ∧ (∀ (t : centurion.MouseState) (h : Int),
        centurion.LInv t → centurion.LInv (t.set_logical_height h)) := by
  refine ⟨by decide, ?_, ?_, ?_, ?_, by decide, ?_, ?_, ?_, ?_⟩
  · exact fun s raw ww wh h => h
  · exact fun s => ⟨le_refl 1, le_refl 1⟩
  · intro s w h
    exact ⟨one_le_detailMax_one w, h.2⟩
  · intro s hh h
    exact ⟨h.1, one_le_detailMax_one hh⟩
  · exact fun t raw h => h
  · exact fun t => ⟨le_refl 1, le_refl 1⟩
  · intro t w h
    refine ⟨?_, h.2⟩
    show (1 : Int) ≤ (if w ≤ 0 then 1 else w)
    split <;> omega
  · intro t hh h
    refine ⟨h.1, ?_⟩
    show (1 : Int) ≤ (if hh ≤ 0 then 1 else hh)
    split <;> omega

/-- Witness for claim C5: the invariant is preserved when setting the logical
width to -3 from the default state. -/
theorem claim_C5_logical_dims_invariant_witness :
    cen.Inv (cen.mouse_state.default.set_logical_width (-3)) :=
  claim_C5_logical_dims_invariant.2.2.2.1 cen.mouse_state.default (-3)
    (by decide)

/-- Claim C6: for every `w ≤ 0`, `set_logical_width(w)` yields
`logical_width() == 1`, and for `w > 0` it yields `logical_width() == w`;
the same contract holds for the height setter, in both variants. -/
theorem claim_C6_setter_contract :
    ∀ (s : cen.mouse_state) (t : centurion.MouseState) (w : Int),
      (w ≤ 0 →
        (s.set_logical_width w).logical_width = 1
        ∧ (s.set_logical_height w).logical_height = 1
        ∧ (t.set_logical_width w).get_logical_width = 1
        ∧ (t.set_logical_height w).get_logical_height = 1)
      ∧ (0 < w →
        (s.set_logical_width w).logical_width = w
        ∧ (s.set_logical_height w).logical_height = w
        ∧ (t.set_logical_width w).get_logical_width = w
        ∧ (t.set_logical_height w).get_logical_height = w) := by
  intro s t w
  constructor <;> intro hw <;> refine ⟨?_, ?_, ?_, ?_⟩
  · show cen.detailMax w 1 = 1
    unfold cen.detailMax
    split <;> omega
  · show cen.detailMax w 1 = 1
    unfold cen.detailMax
    split <;> omega
  · show (if w ≤ 0 then 1 else w) = 1
    split <;> omega
  · show (if w ≤ 0 then 1 else w) = 1
    split <;> omega
  · show cen.detailMax w 1 = w
    unfold cen.detailMax
    split <;> omega
  · show cen.detailMax w 1 = w
    unfold cen.detailMax
    split <;> omega
  · show (if w ≤ 0 then 1 else w) = w
    split <;> omega
  · show (if w ≤ 0 then 1 else w) = w
    split <;> omega

/-- Witness for claim C6: setting the logical width to -5 stores 1 and
setting it to 7 stores 7. -/
theorem claim_C6_setter_contract_witness :
    (cen.mouse_state.default.set_logical_width (-5)).logical_width = 1
    ∧ (cen.mouse_state.default.set_logical_width 7).logical_width = 7 :=
  ⟨((claim_C6_setter_contract cen.mouse_state.default
      centurion.MouseState.default (-5)).1 (by decide)).1,
   ((claim_C6_setter_contract cen.mouse_state.default
      centurion.MouseState.default 7).2 (by decide)).1⟩

/-- Claim C7: from any state, `reset()` sets the logical dimensions to 1 (and
the stored window dimensions to 1 in the variant storing them) while leaving
the mouse position, the old position fields and all current and previous
button-pressed states unchanged. -/
theorem claim_C7_reset_effect :
    (∀ s : cen.mouse_state,
        s.reset.logical_width = 1 ∧ s.reset.logical_height = 1
      ∧ s.reset.mouse_x = s.mouse_x ∧ s.reset.mouse_y = s.mouse_y
      ∧ s.reset.m_oldX = s.m_oldX ∧ s.reset.m_oldY = s.m_oldY
      ∧ s.reset.is_left_button_pressed = s.is_left_button_pressed
      ∧ s.reset.is_right_button_pressed = s.is_right_button_pressed
      ∧ s.reset.m_prevLeftPressed = s.m_prevLeftPressed
      ∧ s.reset.m_prevRightPressed = s.m_prevRightPressed)
    ∧ (∀ t : centurion.MouseState,
        t.reset.get_logical_width = 1 ∧ t.reset.get_logical_height = 1
      ∧ t.reset.get_window_width = 1 ∧ t.reset.get_window_height = 1
      ∧ t.reset.get_mouse_x = t.get_mouse_x
      ∧ t.reset.get_mouse_y = t.get_mouse_y
      ∧ t.reset.oldX = t.oldX ∧ t.reset.oldY = t.oldY
      ∧ t.reset.is_left_button_pressed = t.is_left_button_pressed
      ∧ t.reset.is_right_button_pressed = t.is_right_button_pressed
      ∧ t.reset.prevLeftPressed = t.prevLeftPressed
      ∧ t.reset.prevRightPressed = t.prevRightPressed) :=
  ⟨fun _ => ⟨rfl, rfl, rfl, rfl, rfl, rfl, rfl, rfl, rfl, rfl⟩,
   fun _ => ⟨rfl, rfl, rfl, rfl, rfl, rfl, rfl, rfl, rfl, rfl, rfl, rfl⟩⟩

/-- Claim C8: no division by zero is possible: in the header variant the
divisor at the point of division is `detail::max(dimension, 1)`, which is at
least 1; in the old variant the stored window dimensions are at least 1 in
every state reachable from the default state by public operations (every
operation in the Lean model is a total function). -/
theorem claim_C8_no_division_by_zero :
    (∀ windowWidth windowHeight : Int,
        1 ≤ cen.detailMax windowWidth 1 ∧ 1 ≤ cen.detailMax windowHeight 1)
    ∧ (∀ ops : List centurion.Op,
        1 ≤ (centurion.applyOps centurion.MouseState.default ops).windowWidth
        ∧ 1 ≤ (centurion.applyOps centurion.MouseState.default ops).windowHeight) :=
  ⟨fun ww wh => ⟨one_le_detailMax_one ww, one_le_detailMax_one wh⟩,
   fun ops => centurion_winv_applyOps ops centurion.MouseState.default
     ⟨le_refl 1, le_refl 1⟩⟩

/-- Claim C9: `was_mouse_moved()` is true iff the current logical position
differs from the previously recorded one in at least one component, and it is
false after two consecutive `update()` calls with identical raw coordinates
and unchanged dimensions; this holds in both variants. -/
theorem claim_C9_mouse_moved_detection :
    (∀ s : cen.mouse_state,
        s.was_mouse_moved = true
          ↔ (s.m_mouseX ≠ s.m_oldX ∨ s.m_mouseY ≠ s.m_oldY))
    ∧ (∀ (s : cen.mouse_state) (raw : RawInput) (ww wh : Int),
        ((s.update raw ww wh).update raw ww wh).was_mouse_moved = false)
    ∧ (∀ t : centurion.MouseState,
        t.was_mouse_moved = true
          ↔ (t.mouseX ≠ t.oldX ∨ t.mouseY ≠ t.oldY))
    ∧ (∀ (t : centurion.MouseState) (raw : RawInput),
        ((t.update raw).update raw).was_mouse_moved = false) := by
  refine ⟨?_, ?_, ?_, ?_⟩
  · intro s
    simp [cen.mouse_state.was_mouse_moved]
  · intro s raw ww wh
    simp [cen.mouse_state.was_mouse_moved, cen.mouse_state.update]
  · intro t
    simp [centurion.MouseState.was_mouse_moved]
  · intro t raw
    simp [centurion.MouseState.was_mouse_moved, centurion.MouseState.update]

/-- Claim C10: `update()` leaves the logical dimensions (and, in the variant
storing them, the window dimensions) unchanged for every state and every raw
input sample. -/
theorem claim_C10_update_preserves_config :
    (∀ (s : cen.mouse_state) (raw : RawInput) (ww wh : Int),
        (s.update raw ww wh).logical_width = s.logical_width
      ∧ (s.update raw ww wh).logical_height = s.logical_height)
    ∧ (∀ (t : centurion.MouseState) (raw : RawInput),
        (t.update raw).get_logical_width = t.get_logical_width
      ∧ (t.update raw).get_logical_height = t.get_logical_height
      ∧ (t.update raw).get_window_width = t.get_window_width
      ∧ (t.update raw).get_window_height = t.get_window_height) :=
  ⟨fun _ _ _ _ => ⟨rfl, rfl⟩,
   fun _ _ => ⟨rfl, rfl, rfl, rfl⟩⟩
